import Mathlib

/-!
Shallow embedding of the feed-acquisition core of the YATTR feed reader
(`backend/scheduler.py`, `backend/fetcher.py`, `backend/rules.py`,
`backend/network_safety.py`, `backend/cleanup.py`, `backend/feed_settings.py`).

Python machine integers are unbounded, so database integer columns are
modelled as `Int` (ids as `Nat`); nullable columns as `Option`; fallible
code as `Except`.  External collaborators (the SQLAlchemy store, httpx,
feedparser, hashlib, lxml, the image cache, DNS) are modelled as explicit
state or as function parameters gathered in an `Ext` record; everything the
repository's own code computes is translated directly from the source.
-/

set_option linter.unusedVariables false

namespace YATTR

/-- Python string truthiness: `None` and the empty string are falsy. -/
def strTruthy : Option String → Bool
  | none => false
  | some s => !(s == "")

/-- Python `a or b` where both operands are optional strings. -/
def pyOr (a b : Option String) : Option String :=
  if strTruthy a then a else b

/-- Python `a or b` where the right operand is a plain string. -/
def pyOrStr (a : Option String) (b : String) : String :=
  if strTruthy a then a.getD "" else b

/-- Python `a or b` on an optional integer left operand (`None` and `0` are falsy). -/
def pyOrInt (a : Option Int) (b : Int) : Int :=
  match a with
  | none => b
  | some x => if x == 0 then b else x

/-! ## Scheduler in-flight registry (backend/scheduler.py)

The process-wide set `_feed_in_flight : set[int]` is guarded by
`_feed_in_flight_lock`; every access below corresponds to one critical
section of the source, so each definition is one atomic step of the
scheduler's state machine. -/

/-- The scheduler's process-wide state: the ids in `_feed_in_flight`.
Ids are only inserted when absent, so the list never holds duplicates. -/
structure SchedulerState where
  inFlight : List Nat
  deriving Repr, DecidableEq

/-- Outcome of the body of `_run_feed_job` (the `_process_feed_job` call):
it either returns normally or raises; the source's `finally` block runs in
both cases. -/
inductive JobOutcome where
  | success
  | raised
  deriving Repr, DecidableEq

/-- `set.discard(feed_id)` on the in-flight list. -/
def SchedulerState.discard (s : SchedulerState) (feedId : Nat) : SchedulerState :=
  ⟨s.inFlight.filter (fun x => !(x == feedId))⟩

/-- `enqueue_feed_update` from backend/scheduler.py: under the in-flight
lock, return `False` if the id is already present, otherwise insert it;
then submit the job to the executor.  `submitOk` models whether
`executor.submit` raises; on a raise the id is discarded again and the
exception propagates (result `none`). -/
def enqueue_feed_update (s : SchedulerState) (feedId : Nat) (submitOk : Bool) :
    Option Bool × SchedulerState :=
  if s.inFlight.contains feedId then
    (some false, s)
  else
    let s₁ : SchedulerState := ⟨feedId :: s.inFlight⟩
    if submitOk then
      (some true, s₁)
    else
      (none, s₁.discard feedId)

/-- The effect of `_run_feed_job` on the in-flight set: whatever the job
body does (success or exception), the `finally` block discards the id. -/
def run_feed_job_inFlight (s : SchedulerState) (feedId : Nat) (outcome : JobOutcome) :
    SchedulerState :=
  s.discard feedId

/-! ## Data model (backend/models.py plus the use_global columns of backend/db.py) -/

/-- A row of the `feeds` table, restricted to the columns the acquisition
core reads or writes. -/
structure Feed where
  id : Nat
  user_id : Nat
  title : String
  url : String
  site_url : Option String := none
  icon_url : Option String := none
  etag : Option String := none
  last_modified : Option String := none
  fetch_interval_min : Int := 30
  last_fetch_at : Int := 0
  last_status : Int := 0
  error_count : Int := 0
  disabled : Bool := false
  fulltext_enabled : Bool := false
  cleanup_retention_days : Int := 30
  cleanup_keep_content : Bool := true
  image_cache_enabled : Bool := false
  use_global_fetch_interval : Bool := true
  use_global_fulltext : Bool := true
  use_global_cleanup_retention : Bool := true
  use_global_cleanup_keep_content : Bool := true
  use_global_image_cache : Bool := true
  deriving Repr, DecidableEq

/-- A row of the `entries` table. -/
structure Entry where
  id : Nat
  feed_id : Nat
  guid : Option String := none
  url : Option String := none
  title : String
  author : Option String := none
  published_at : Int
  summary : Option String := none
  content_html : Option String := none
  content_text : Option String := none
  hash : String
  deriving Repr, DecidableEq

/-- A row of the `user_entry_state` table. -/
structure UserEntryState where
  user_id : Nat
  entry_id : Nat
  is_read : Bool := false
  is_starred : Bool := false
  is_later : Bool := false
  read_at : Int := 0
  deriving Repr, DecidableEq

/-- A row of the `fetch_logs` table. -/
structure FetchLog where
  feed_id : Nat
  status : Int
  fetched_at : Int
  error_message : Option String := none
  deriving Repr, DecidableEq

/-- The decoded form of a filter rule's `match_json` after `json.loads`:
`keywords?` is the optional `"keywords"` key (`matcher.get("keywords", [])`
reads it with default `[]`). -/
structure MatchDict where
  keywords? : Option (List String) := none
  deriving Repr, DecidableEq

/-- The decoded form of a filter rule's `actions_json` after `json.loads`;
each field is the optional key read by `actions.get(...) is True`. -/
structure ActionsDict where
  mark_read? : Option Bool := none
  star? : Option Bool := none
  later? : Option Bool := none
  deriving Repr, DecidableEq

/-- A row of the `filter_rules` table.  The stored JSON text columns are
modelled by their decoded values; `none` models a `json.JSONDecodeError`
from `json.loads`. -/
structure FilterRule where
  id : Nat
  user_id : Nat
  priority : Int := 0
  enabled : Bool := true
  match_json : Option MatchDict := none
  actions_json : Option ActionsDict := none
  deriving Repr, DecidableEq

/-- A row of the `users` table together with the user's per-user settings
store.  `ConfigStore.get(user, key, default)` (an external key-value
collaborator) is modelled as the corresponding `cfg_*` field with
`Option.getD default`. -/
structure UserRec where
  id : Nat
  cfg_default_fetch_interval_min : Option Int := none
  cfg_fulltext_enabled : Option Bool := none
  cfg_cleanup_retention_days : Option Int := none
  cfg_cleanup_keep_content : Option Bool := none
  cfg_image_cache_enabled : Option Bool := none
  deriving Repr, DecidableEq

/-- The relational store shared by the acquisition core, as lists of rows.
`next_entry_id` models the autoincrement id handed out at `db.flush()`;
`image_files` models the image-cache directory (file names present). -/
structure DB where
  users : List UserRec := []
  feeds : List Feed := []
  entries : List Entry := []
  states : List UserEntryState := []
  logs : List FetchLog := []
  rules : List FilterRule := []
  next_entry_id : Nat := 1
  image_files : List String := []
  deriving Repr, DecidableEq

/-! ## Filter Rule Engine (backend/rules.py) -/

/-- The haystack built by `_match`: the space-joined, lowercased
concatenation of title, summary, extracted text and author. -/
def matchText (entry : Entry) : String :=
  (String.intercalate " "
    [entry.title, entry.summary.getD "", entry.content_text.getD "",
      entry.author.getD ""]).toLower

/-- `_match` from backend/rules.py: a decode error never matches; then the
keyword predicate: when the (lowercased) keyword list is non-empty and no
keyword is a substring of the haystack, the rule does not match; otherwise
it matches. -/
def matchRule (rule : FilterRule) (entry : Entry) : Bool :=
  match rule.match_json with
  | none => false
  | some matcher =>
    let text := matchText entry
    let keywords := (matcher.keywords?.getD []).map String.toLower
    if !keywords.isEmpty && !(keywords.any (fun k => text.containsSubstr k)) then
      false
    else
      true

/-- Replaces the first list element satisfying `p` by `f` of it, leaving
the rest untouched: the effect of mutating the row returned by a
`.filter(...).first()` query. -/
def updateFirst (p : α → Bool) (f : α → α) : List α → List α
  | [] => []
  | x :: xs => if p x then f x :: xs else x :: updateFirst p f xs

/-- `_apply_actions` from backend/rules.py: look up the (user, entry) state
row; if absent do nothing, otherwise set each flag whose action key is
literally `True` (one-way sets, never unset). -/
def apply_actions (db : DB) (user_id : Nat) (entry : Entry) (actions : ActionsDict) : DB :=
  let p := fun (s : UserEntryState) => s.user_id == user_id && s.entry_id == entry.id
  match db.states.find? p with
  | none => db
  | some _ =>
    { db with
      states := updateFirst p (fun s =>
        let s := if actions.mark_read? == some true then { s with is_read := true } else s
        let s := if actions.star? == some true then { s with is_starred := true } else s
        if actions.later? == some true then { s with is_later := true } else s) db.states }

/-- Stable insertion of a rule into a list already sorted by ascending
priority, after all rules of smaller-or-equal priority. -/
def insertByPriority (r : FilterRule) : List FilterRule → List FilterRule
  | [] => [r]
  | x :: xs =>
    if x.priority ≤ r.priority then x :: insertByPriority r xs else r :: x :: xs

/-- `ORDER BY priority ASC` of the rules query: a stable ascending sort. -/
def sortByPriority (rules : List FilterRule) : List FilterRule :=
  rules.foldl (fun acc r => insertByPriority r acc) []

/-- The rules query of `apply_filters`: the user's enabled rules ordered by
ascending priority. -/
def rulesFor (db : DB) (user_id : Nat) : List FilterRule :=
  sortByPriority (db.rules.filter (fun r => r.user_id == user_id && r.enabled))

/-- `apply_filters` from backend/rules.py: evaluate every selected rule in
order; on a match, decode the action JSON (a decode error skips the rule)
and apply the actions to the per-user state. -/
def apply_filters (db : DB) (user_id : Nat) (entry : Entry) : DB :=
  (rulesFor db user_id).foldl
    (fun db rule =>
      if matchRule rule entry then
        match rule.actions_json with
        | none => db
        | some actions => apply_actions db user_id entry actions
      else db)
    db

/-! ## Effective feed settings (backend/feed_settings.py, backend/config.py) -/

/-- The process-wide `settings` object of backend/config.py, restricted to
the fields the acquisition core consumes. -/
structure Config where
  fulltext_enabled : Bool := false
  network_block_private : Bool := true
  network_max_response_bytes : Int := 5 * 1024 * 1024
  scheduler_max_feeds_per_tick : Int := 20
  deriving Repr, DecidableEq

/-- Per-user default settings (`UserFeedDefaults`). -/
structure UserFeedDefaults where
  default_fetch_interval_min : Int
  fulltext_enabled : Bool
  cleanup_retention_days : Int
  cleanup_keep_content : Bool
  image_cache_enabled : Bool
  deriving Repr, DecidableEq

/-- Fully resolved per-feed settings (`EffectiveFeedSettings`). -/
structure EffectiveFeedSettings where
  fetch_interval_min : Int
  fulltext_enabled : Bool
  cleanup_retention_days : Int
  cleanup_keep_content : Bool
  image_cache_enabled : Bool
  deriving Repr, DecidableEq

/-- `_clamp_int(value, minimum, maximum) = max(minimum, min(int(value), maximum))`. -/
def clamp_int (value minimum maximum : Int) : Int :=
  max minimum (min value maximum)

/-- `default_user_feed_defaults` from backend/feed_settings.py. -/
def default_user_feed_defaults (cfg : Config) : UserFeedDefaults :=
  { default_fetch_interval_min := 30
    fulltext_enabled := cfg.fulltext_enabled
    cleanup_retention_days := 30
    cleanup_keep_content := true
    image_cache_enabled := false }

/-- `resolve_user_feed_defaults` from backend/feed_settings.py: read each
key from the user's settings store with the global default as fallback and
clamp the integer settings. -/
def resolve_user_feed_defaults (cfg : Config) (user : UserRec) : UserFeedDefaults :=
  let defaults := default_user_feed_defaults cfg
  { default_fetch_interval_min :=
      clamp_int
        (user.cfg_default_fetch_interval_min.getD defaults.default_fetch_interval_min)
        1 1440
    fulltext_enabled := user.cfg_fulltext_enabled.getD defaults.fulltext_enabled
    cleanup_retention_days :=
      clamp_int (user.cfg_cleanup_retention_days.getD defaults.cleanup_retention_days)
        1 3650
    cleanup_keep_content :=
      user.cfg_cleanup_keep_content.getD defaults.cleanup_keep_content
    image_cache_enabled :=
      user.cfg_image_cache_enabled.getD defaults.image_cache_enabled }

/-- `resolve_effective_feed_settings` from backend/feed_settings.py: each
setting uses the user default when the feed's use-global flag is set, else
the feed-level override (integers clamped). -/
def resolve_effective_feed_settings (feed : Feed) (defaults : UserFeedDefaults) :
    EffectiveFeedSettings :=
  { fetch_interval_min :=
      if feed.use_global_fetch_interval then defaults.default_fetch_interval_min
      else clamp_int feed.fetch_interval_min 1 1440
    fulltext_enabled :=
      if feed.use_global_fulltext then defaults.fulltext_enabled
      else feed.fulltext_enabled
    cleanup_retention_days :=
      if feed.use_global_cleanup_retention then defaults.cleanup_retention_days
      else clamp_int feed.cleanup_retention_days 1 3650
    cleanup_keep_content :=
      if feed.use_global_cleanup_keep_content then defaults.cleanup_keep_content
      else feed.cleanup_keep_content
    image_cache_enabled :=
      if feed.use_global_image_cache then defaults.image_cache_enabled
      else feed.image_cache_enabled }

/-! ## Due-Feed Selector (backend/fetcher.py, `iter_due_feeds`) -/

/-- The per-user defaults lookup of `iter_due_feeds`: find the feed's owner
and resolve its defaults (`default_user_feed_defaults` when the user row is
missing).  The source memoises this per user id within one scan; the memo
is semantically transparent because the resolution is pure, so it is
embedded as a direct lookup. -/
def lookupDefaults (cfg : Config) (db : DB) (user_id : Nat) : UserFeedDefaults :=
  match db.users.find? (fun u => u.id == user_id) with
  | some u => resolve_user_feed_defaults cfg u
  | none => default_user_feed_defaults cfg

/-- The backoff multiplier of `iter_due_feeds`: `1`, then `24` when
`error_count >= 5`, `4` when `>= 3`, `1` when `>= 1`. -/
def dueBackoff (error_count : Int) : Int :=
  if error_count ≥ 5 then 24
  else if error_count ≥ 3 then 4
  else if error_count ≥ 1 then 1
  else 1

/-- The loop body of `iter_due_feeds` over the feeds returned by the
`disabled == False` query, yielding the due feeds and the (possibly
mutated) scanned rows.  A feed with ten or more consecutive errors is
marked disabled and skipped; otherwise it is yielded exactly when
`now_ts >= last_fetch_at + interval_seconds * backoff`. -/
def iterDueGo (cfg : Config) (db : DB) (now_ts : Int) :
    List Feed → List Feed × List Feed
  | [] => ([], [])
  | feed :: rest =>
    let (due, upd) := iterDueGo cfg db now_ts rest
    if feed.disabled then
      (due, feed :: upd)
    else if feed.error_count ≥ 10 then
      (due, { feed with disabled := true } :: upd)
    else
      let defaults := lookupDefaults cfg db feed.user_id
      let effective := resolve_effective_feed_settings feed defaults
      let interval := effective.fetch_interval_min * 60
      let backoff := dueBackoff feed.error_count
      let dueAt := feed.last_fetch_at + interval * backoff
      if now_ts ≥ dueAt then (feed :: due, feed :: upd) else (due, feed :: upd)

/-- `iter_due_feeds` from backend/fetcher.py: first component the yielded
(due) feeds, second the feed rows as left behind by the scan (the
auto-disable mutation applied). -/
def iter_due_feeds (cfg : Config) (db : DB) (now_ts : Int) : List Feed × List Feed :=
  iterDueGo cfg db now_ts db.feeds

/-! ## Ingestion pipeline (backend/fetcher.py) -/

/-- One element of a feedparser item's `content` list (`{"value": ...}`). -/
structure ContentItem where
  value? : Option String := none
  deriving Repr, DecidableEq

/-- A feedparser item, restricted to the keys `upsert_entries` reads; every
field models `item.get(key)`. -/
structure Item where
  id? : Option String := none
  guid? : Option String := none
  link? : Option String := none
  title? : Option String := none
  summary? : Option String := none
  author? : Option String := none
  published_parsed? : Option (List Int) := none
  content? : Option (List ContentItem) := none
  deriving Repr, DecidableEq

/-- The `feed` dictionary of a parsed document (`{"title": ..., "link": ...}`). -/
structure FeedInfo where
  title? : Option String := none
  link? : Option String := none
  deriving Repr, DecidableEq

/-- A `feedparser.FeedParserDict` as consumed by the pipeline: the optional
`status` key (the not-modified sentinel is `{"status": 304}`), the feed
info dictionary, and the item list. -/
structure ParsedDoc where
  status? : Option Int := none
  feed? : Option FeedInfo := none
  entries : List Item := []
  deriving Repr, DecidableEq

/-- External collaborators of the pipeline, modelled as explicit inputs:
`now` is `int(time.time())`; `sanitize` is `lxml` `Cleaner.clean_html`
(`none` models a raised exception); `cache_images` is
`cache_images_in_html`; `extract_fulltext` the readable-article extractor;
`timegm` is `calendar.timegm` on a 9-tuple; `digest` is
`hashlib.sha256(...).hexdigest()`; `icon` the outcome of
`cache_site_favicon` for this run (`none`: failure or no icon); `parse` is
`feedparser.parse`; `extract_image_names` is the `re` scan of
`_extract_cached_image_names` in backend/cleanup.py (the cached-image
names referenced by an HTML field, `[]` on `None`). -/
structure Ext where
  now : Int := 0
  sanitize : String → Option String := fun s => some s
  cache_images : Option String → String → Option String := fun h _ => h
  extract_fulltext : Option String → Option String := fun _ => none
  timegm : List Int → Int := fun _ => 0
  digest : String → String := fun s => s
  icon : Option String := none
  parse : String → ParsedDoc := fun _ => {}
  extract_image_names : Option String → List String := fun _ => []

/-- `_sanitize_html` from backend/fetcher.py: `None`/empty input gives
`None`; otherwise the cleaner runs (an exception inside it gives `None`,
folded into the `sanitize` parameter). -/
def sanitize_html (ext : Ext) (html_content : Option String) : Option String :=
  match html_content with
  | none => none
  | some s => if s == "" then none else ext.sanitize s

/-- `_hash_entry` from backend/fetcher.py: the digest of
`guid or link or title or ""`. -/
def hash_entry (ext : Ext) (guid link title : Option String) : String :=
  ext.digest ((pyOr guid (pyOr link title)).getD "")

/-- The dedup hash `upsert_entries` computes for an item:
`_hash_entry(item.get("id") or item.get("guid"), item.get("link"),
item.get("title") or "(untitled)")`. -/
def itemHash (ext : Ext) (item : Item) : String :=
  hash_entry ext (pyOr item.id? item.guid?) item.link?
    (some (pyOrStr item.title? "(untitled)"))

/-- The `published_at` computation of `upsert_entries`: the current time,
unless a truthy `published_parsed` sequence is present, in which case
`calendar.timegm` of its first nine fields padded with zeros. -/
def itemPublishedAt (ext : Ext) (item : Item) : Int :=
  match item.published_parsed? with
  | none => ext.now
  | some seq =>
    if seq.isEmpty then ext.now
    else ext.timegm ((seq.take 9 ++ List.replicate 9 0).take 9)

/-- The loop body of `upsert_entries` for one remote item: compute the
content fields, skip when an entry with the same (feed, hash) exists, else
insert the entry, upsert its zero per-user state row
(`ON CONFLICT DO NOTHING`), and run the filter rules. -/
def upsertItem (ext : Ext) (feed : Feed) (effective : EffectiveFeedSettings)
    (acc : DB × Int) (item : Item) : DB × Int :=
  let db := acc.1
  let guid := pyOr item.id? item.guid?
  let link := item.link?
  let title := pyOrStr item.title? "(untitled)"
  let summary₀ := item.summary?
  let author := item.author?
  let published_at := itemPublishedAt ext item
  let content_html₀ :=
    match item.content? with
    | some (first :: _) => first.value?
    | _ => none
  let content_html₁ := sanitize_html ext content_html₀
  let summary₁ := sanitize_html ext summary₀
  let base_for_assets := pyOrStr link (pyOrStr feed.site_url feed.url)
  let content_html₂ :=
    if effective.image_cache_enabled then ext.cache_images content_html₁ base_for_assets
    else content_html₁
  let summary₂ :=
    if effective.image_cache_enabled then ext.cache_images summary₁ base_for_assets
    else summary₁
  let content_text₀ :=
    if effective.fulltext_enabled then ext.extract_fulltext link else item.summary?
  let content_html := if !effective.cleanup_keep_content then none else content_html₂
  let content_text := if !effective.cleanup_keep_content then none else content_text₀
  let entry_hash := itemHash ext item
  match db.entries.find? (fun e => e.feed_id == feed.id && e.hash == entry_hash) with
  | some _ => acc
  | none =>
    let entry : Entry :=
      { id := db.next_entry_id
        feed_id := feed.id
        guid := guid
        url := link
        title := title
        author := author
        published_at := published_at
        summary := summary₂
        content_html := content_html
        content_text := content_text
        hash := entry_hash }
    let db₁ := { db with
      entries := db.entries ++ [entry]
      next_entry_id := db.next_entry_id + 1 }
    let db₂ :=
      if db₁.states.any (fun s => s.user_id == feed.user_id && s.entry_id == entry.id) then
        db₁
      else
        { db₁ with states := db₁.states ++ [{ user_id := feed.user_id, entry_id := entry.id }] }
    let db₃ := apply_filters db₂ feed.user_id entry
    (db₃, acc.2 + 1)

/-- `upsert_entries` from backend/fetcher.py: zero on the not-modified
sentinel; otherwise resolve the owner's defaults and the feed's effective
settings and fold the item loop, returning the count of newly inserted
entries and the updated store. -/
def upsert_entries (ext : Ext) (cfg : Config) (db : DB) (feed : Feed)
    (parsed : ParsedDoc) : Int × DB :=
  if parsed.status? == some 304 then (0, db)
  else
    let defaults := lookupDefaults cfg db feed.user_id
    let effective := resolve_effective_feed_settings feed defaults
    let r := parsed.entries.foldl (upsertItem ext feed effective) (db, 0)
    (r.2, r.1)

/-! ## Feed transport (backend/fetcher.py, `fetch_feed` and its retry decorator) -/

/-- The classified exceptions a single fetch attempt can raise, mirroring
the classes `format_fetch_error` distinguishes; `unsafeUrl` is
`UnsafeOutboundUrlError` (a `ValueError`), raised by the Safety Gate for a
blocked target or an oversized body. -/
inductive FetchExc where
  | timeout
  | connectError
  | remoteProtocolError (message : String)
  | httpStatusError (status : Int)
  | unsafeUrl (message : String)
  | other (message : String)
  deriving Repr, DecidableEq

/-- The outcome of one `fetch_text_response` call inside `fetch_feed`:
either a streamed response (status, cache headers, body text) or one of
the exceptions it can raise. -/
inductive HttpOutcome where
  | success (status : Int) (etag lastModified : Option String) (body : String)
  | exc (e : FetchExc)
  deriving Repr, DecidableEq

/-- One un-retried attempt of `fetch_feed` from backend/fetcher.py, given
the transport outcome.  An `HTTPStatusError` with code 304 is converted to
the not-modified sentinel after recording `last_status = 304`; other
exceptions propagate.  On a response, `last_status` is recorded; a 304
yields the sentinel, otherwise the body is parsed and the feed's cache
tokens are replaced by the response headers.  The conditional-GET request
headers built from `etag`/`last_modified` only shape the remote outcome,
which is already an input here.  The function returns the parsed document
together with the mutated in-memory feed row. -/
def fetch_feed_attempt (ext : Ext) (feed : Feed) (http : HttpOutcome) :
    Except FetchExc (ParsedDoc × Feed) :=
  match http with
  | .exc e =>
    match e with
    | .httpStatusError status =>
      if status == 304 then
        .ok ({ status? := some 304 }, { feed with last_status := 304 })
      else
        .error (.httpStatusError status)
    | e => .error e
  | .success status etag lastModified body =>
    let feed := { feed with last_status := status }
    if status == 304 then
      .ok ({ status? := some 304 }, feed)
    else
      .ok (ext.parse body,
        { feed with etag := etag, last_modified := lastModified })

/-- Result of a tenacity-wrapped call: a value, or a `RetryError` wrapping
the exception of the last attempt once the stop condition is reached
(`exhausted` is unreachable for a positive attempt budget). -/
inductive RetryOutcome (E A : Type) where
  | ok (a : A)
  | retryError (last : E)
  | exhausted
  deriving Repr, DecidableEq

/-- Modelled from the tenacity documentation for the decorator
`@retry(stop=stop_after_attempt(n), wait=wait_exponential(...))` applied in
backend/fetcher.py: with no `retry=` argument tenacity retries on every
exception, so each failed attempt is re-run until the attempt budget is
exhausted, after which a `RetryError` wrapping the last exception is
raised (`reraise` defaults to `False`).  The wait times do not affect the
value semantics.  Returns the outcome together with the number of attempts
executed. -/
def tenacity_retry (attempt : Nat → Except E A) :
    (used : Nat) → (budget : Nat) → RetryOutcome E A × Nat
  | used, 0 => (.exhausted, used)
  | used, budget + 1 =>
    match attempt used with
    | .ok a => (.ok a, used + 1)
    | .error e =>
      if budget == 0 then (.retryError e, used + 1)
      else tenacity_retry attempt (used + 1) budget

/-- `fetch_feed` as called by the pipeline: the attempt wrapped by
`@retry(stop=stop_after_attempt(3), ...)`; `https i` is the transport
outcome of attempt `i`. -/
def fetch_feed_retried (ext : Ext) (feed : Feed) (https : Nat → HttpOutcome) :
    RetryOutcome FetchExc (ParsedDoc × Feed) × Nat :=
  tenacity_retry (fun i => fetch_feed_attempt ext feed (https i)) 0 3

/-- `format_fetch_error` from backend/fetcher.py, on an already-unwrapped
exception (the source first unwraps a tenacity `RetryError` to the last
attempt's exception, which the caller below has already done): the stable
error-class-to-message mapping.  For the catch-all case the source falls
back to the exception's class name when its text is blank; the class name
is abstracted as the literal "Exception". -/
def format_fetch_error : FetchExc → String
  | .timeout => "请求订阅源超时，请稍后重试"
  | .connectError => "无法连接到订阅源，请检查 URL 或网络"
  | .remoteProtocolError message =>
    if message == "" then "远程协议错误：远程服务返回了不完整或异常的响应"
    else "远程协议错误：" ++ message
  | .httpStatusError status => "订阅源返回 HTTP " ++ toString status
  | .unsafeUrl message => "数据格式错误：" ++ message
  | .other message =>
    let detail := message.trim
    if detail == "" then "Exception" else detail

/-! ## `process_feed` (backend/fetcher.py) -/

/-- `process_feed` from backend/fetcher.py, given the outcome of the
(retried) fetch.  On success: update title/site from the `feed` dictionary
(Python `or` fallback), refresh the icon, upsert the entries, set
`last_fetch_at` to now, reset `error_count` when `last_status` is 200 or
304, and append a success `FetchLog` row.  On any exception: the
transaction is rolled back — which discards every in-transaction change,
so the rolled-back store is the input store and the re-read feed row is
the input feed row — then the error counter is incremented,
`last_fetch_at` is set to now, and a failure `FetchLog` row (status
`last_status or 0`, which on the integer column is the identity) is
appended; the return value is 0.  Returns (added, store, feed row). -/
def process_feed (ext : Ext) (cfg : Config) (db : DB) (feed : Feed)
    (fetched : Except FetchExc (ParsedDoc × Feed)) : Int × DB × Feed :=
  match fetched with
  | .ok (parsed, feed₁) =>
    let feed₂ :=
      match parsed.feed? with
      | some info =>
        { feed₁ with
          title := pyOrStr info.title? feed₁.title
          site_url := pyOr info.link? feed₁.site_url }
      | none => feed₁
    let feed₃ :=
      match ext.icon with
      | some u => { feed₂ with icon_url := some u }
      | none => feed₂
    let r := upsert_entries ext cfg db feed₃ parsed
    let feed₄ := { feed₃ with
      last_fetch_at := ext.now
      error_count :=
        if feed₃.last_status == 200 || feed₃.last_status == 304 then 0
        else feed₃.error_count }
    let db' := { r.2 with
      logs := r.2.logs ++
        [{ feed_id := feed.id
           status := feed₄.last_status
           fetched_at := feed₄.last_fetch_at
           error_message := none }] }
    (r.1, db', feed₄)
  | .error exc =>
    let tracked := { feed with
      error_count := feed.error_count + 1
      last_fetch_at := ext.now }
    let db' := { db with
      logs := db.logs ++
        [{ feed_id := tracked.id
           status := tracked.last_status
           fetched_at := tracked.last_fetch_at
           error_message := some (format_fetch_error exc) }] }
    (0, db', tracked)

/-! ## Outbound Safety Gate (backend/network_safety.py)

`urllib.parse.urlparse` and `ipaddress` are Python standard library
collaborators; they are modelled below for the URL shapes the gate
handles (`scheme://[user[:password]@]host[:port]/...`) and for IPv4
addresses (hostnames are resolved to IPv4 addresses by the `dns`
parameter standing for `socket.getaddrinfo`). -/

/-- Result of `urllib.parse.urlparse` restricted to the attributes the
gate reads. -/
structure ParsedUrl where
  scheme : String := ""
  username : Option String := none
  password : Option String := none
  hostname : Option String := none
  deriving Repr, DecidableEq

/-- Splits a character list at the first occurrence of `sep`. -/
def splitFirstChar (sep : Char) : List Char → Option (List Char × List Char)
  | [] => none
  | c :: cs =>
    if c == sep then some ([], cs)
    else
      match splitFirstChar sep cs with
      | some (a, b) => some (c :: a, b)
      | none => none

/-- Splits a character list on every occurrence of `sep`. -/
def splitOnCharGo (sep : Char) : List Char → List Char → List (List Char)
  | [], acc => [acc.reverse]
  | c :: cs, acc =>
    if c == sep then acc.reverse :: splitOnCharGo sep cs []
    else splitOnCharGo sep cs (c :: acc)

/-- Splits a character list on every occurrence of `sep` (top level). -/
def splitOnChar (sep : Char) (cs : List Char) : List (List Char) :=
  splitOnCharGo sep cs []

/-- Joins character lists with `sep` between them. -/
def joinChar (sep : Char) : List (List Char) → List Char
  | [] => []
  | [x] => x
  | x :: xs => x ++ sep :: joinChar sep xs

/-- Whether `cs` is a syntactically valid URL scheme
(`[a-zA-Z][a-zA-Z0-9+.-]*`), as `urlparse` requires before it splits a
scheme off. -/
def validScheme (cs : List Char) : Bool :=
  match cs with
  | [] => false
  | c :: rest =>
    c.isAlpha && rest.all (fun c => c.isAlphanum || c == '+' || c == '-' || c == '.')

/-- Modelled `urlparse` on characters: scheme before the first `:` when
valid; when the remainder starts with `//`, the netloc runs to the next
`/`, `?` or `#`; user-info before the last `@` of the netloc (username
before its first `:`, password after); hostname is the lowercased host
part with any `:port` removed, `none` when empty. -/
def urlsplitChars (cs : List Char) : ParsedUrl :=
  match splitFirstChar ':' cs with
  | none => {}
  | some (schemeCs, rest) =>
    if !(validScheme schemeCs) then {}
    else if !(rest.take 2 == ['/', '/']) then
      { scheme := String.mk schemeCs }
    else
      let netloc := (rest.drop 2).takeWhile
        (fun c => !(c == '/') && !(c == '?') && !(c == '#'))
      let parts := splitOnChar '@' netloc
      let hostport := parts.getLastD []
      let userinfo? : Option (List Char) :=
        if parts.length ≥ 2 then some (joinChar '@' parts.dropLast) else none
      let (username, password) :=
        match userinfo? with
        | none => (none, none)
        | some userinfo =>
          match splitFirstChar ':' userinfo with
          | none => (some (String.mk userinfo), none)
          | some (u, p) => (some (String.mk u), some (String.mk p))
      let hostCs := hostport.takeWhile (fun c => !(c == ':'))
      { scheme := String.mk schemeCs
        username := username
        password := password
        hostname :=
          if hostCs.isEmpty then none
          else some (String.mk (hostCs.map Char.toLower)) }

/-- Modelled `urlparse` on strings. -/
def urlsplit (s : String) : ParsedUrl :=
  urlsplitChars s.toList

/-- Parses one dotted-quad octet as Python's `ipaddress` does: decimal
digits only, no leading zero, at most three digits, value at most 255. -/
def ipv4Octet (cs : List Char) : Option Nat :=
  if cs.isEmpty then none
  else if !(cs.all Char.isDigit) then none
  else if cs.length > 1 && cs.headD '0' == '0' then none
  else if cs.length > 3 then none
  else
    let n := cs.foldl (fun a c => a * 10 + (c.toNat - 48)) 0
    if n ≤ 255 then some n else none

/-- Modelled `ipaddress.ip_address` for IPv4 literals: the address as a
number below 2^32, `none` when the string is not a literal IPv4 address
(Python then tries IPv6, outside this model; such hosts fall through to
DNS resolution here). -/
def ip_address_v4 (s : String) : Option Nat :=
  match splitOnChar '.' s.toList with
  | [a, b, c, d] =>
    match ipv4Octet a, ipv4Octet b, ipv4Octet c, ipv4Octet d with
    | some a, some b, some c, some d =>
      some (((a * 256 + b) * 256 + c) * 256 + d)
    | _, _, _, _ => none
  | _ => none

/-- The numeric value of the IPv4 address `a.b.c.d`. -/
def mkIp (a b c d : Nat) : Nat :=
  ((a * 256 + b) * 256 + c) * 256 + d

/-- Whether `n` lies in the network `base/bits`. -/
def inNet (n base bits : Nat) : Bool :=
  n / 2 ^ (32 - bits) == base / 2 ^ (32 - bits)

/-- `ipaddress.IPv4Address.is_loopback`: 127.0.0.0/8. -/
def ipv4_is_loopback (n : Nat) : Bool := inNet n (mkIp 127 0 0 0) 8

/-- `ipaddress.IPv4Address.is_link_local`: 169.254.0.0/16. -/
def ipv4_is_link_local (n : Nat) : Bool := inNet n (mkIp 169 254 0 0) 16

/-- `ipaddress.IPv4Address.is_multicast`: 224.0.0.0/4. -/
def ipv4_is_multicast (n : Nat) : Bool := inNet n (mkIp 224 0 0 0) 4

/-- `ipaddress.IPv4Address.is_reserved`: 240.0.0.0/4. -/
def ipv4_is_reserved (n : Nat) : Bool := inNet n (mkIp 240 0 0 0) 4

/-- `ipaddress.IPv4Address.is_unspecified`: 0.0.0.0. -/
def ipv4_is_unspecified (n : Nat) : Bool := n == 0

/-- `ipaddress.IPv4Address.is_private`: membership in the standard
private-use network list of the `ipaddress` module. -/
def ipv4_is_private (n : Nat) : Bool :=
  [ (mkIp 0 0 0 0, 8), (mkIp 10 0 0 0, 8), (mkIp 127 0 0 0, 8),
    (mkIp 169 254 0 0, 16), (mkIp 172 16 0 0, 12), (mkIp 192 0 0 0, 29),
    (mkIp 192 0 0 170, 31), (mkIp 192 0 2 0, 24), (mkIp 192 168 0 0, 16),
    (mkIp 198 18 0 0, 15), (mkIp 198 51 100 0, 24), (mkIp 203 0 113 0, 24),
    (mkIp 240 0 0 0, 4), (mkIp 255 255 255 255, 32) ].any
    (fun net => inNet n net.1 net.2)

/-- `_is_blocked_ip` from backend/network_safety.py: private, loopback,
link-local, multicast, reserved or unspecified. -/
def is_blocked_ip (n : Nat) : Bool :=
  ipv4_is_private n || ipv4_is_loopback n || ipv4_is_link_local n ||
    ipv4_is_multicast n || ipv4_is_reserved n || ipv4_is_unspecified n

/-- Python `str.strip()`: whitespace removed from both ends. -/
def pyStrip (s : String) : String :=
  String.mk (((s.toList.dropWhile Char.isWhitespace).reverse.dropWhile
    Char.isWhitespace).reverse)

/-- Python `str.lower()` (on the ASCII range the URLs here use). -/
def pyLower (s : String) : String :=
  String.mk (s.toList.map Char.toLower)

/-- `_resolve_host_ips` from backend/network_safety.py: the addresses
`socket.getaddrinfo` returns for the hostname (the `dns` parameter);
raises when nothing resolves.  The source's de-duplication of equal
addresses does not change any membership test and is omitted; its
`lru_cache` is semantically transparent. -/
def resolve_host_ips (dns : String → List Nat) (hostname : String) :
    Except String (List Nat) :=
  let resolved := dns hostname
  if resolved.isEmpty then .error "无法解析目标地址" else .ok resolved

/-- `ensure_safe_outbound_url` from backend/network_safety.py: strip the
URL, reject empty input, non-http(s) scheme, missing hostname and embedded
credentials; when private-network blocking is enabled, determine the
address list (the literal IP, or every DNS-resolved address) and reject
when any address is blocked; otherwise return the stripped URL. -/
def ensure_safe_outbound_url (cfg : Config) (dns : String → List Nat)
    (raw_url : String) : Except String String :=
  let value := pyStrip raw_url
  if value == "" then .error "URL 不能为空"
  else
    let parsed := urlsplit value
    if !(pyLower parsed.scheme == "http" || pyLower parsed.scheme == "https") then
      .error "仅允许 http/https URL"
    else
      match parsed.hostname with
      | none => .error "URL 缺少主机名"
      | some host =>
        if strTruthy parsed.username || strTruthy parsed.password then
          .error "URL 不允许内嵌凭据"
        else if cfg.network_block_private then
          let addresses : Except String (List Nat) :=
            match ip_address_v4 host with
            | some ip => .ok [ip]
            | none => resolve_host_ips dns host
          match addresses with
          | .error e => .error e
          | .ok addresses =>
            if addresses.any is_blocked_ip then .error "目标地址属于受保护网段"
            else .ok value
        else .ok value

/-! ## Limited stream reading (backend/network_safety.py) -/

/-- The accumulation loop shared by `_read_limited_chunks`: extend the
buffer with each non-empty chunk and fail as soon as the buffer length
exceeds the limit. -/
def read_limited_go (limit_bytes : Int) :
    List (List Nat) → List Nat → Except String (List Nat)
  | [], data => .ok data
  | chunk :: rest, data =>
    if chunk.isEmpty then read_limited_go limit_bytes rest data
    else
      let data := data ++ chunk
      if (data.length : Int) > limit_bytes then .error "远程响应体过大"
      else read_limited_go limit_bytes rest data

/-- `_read_limited_chunks` from backend/network_safety.py (synchronous
byte-stream source; bytes as numbers, the bytearray as a list). -/
def read_limited_chunks (chunks : List (List Nat)) (limit_bytes : Int) :
    Except String (List Nat) :=
  read_limited_go limit_bytes chunks []

/-- The accumulation loop of `_read_limited_async_chunks`, identical to
the synchronous one with `async for` in place of `for`; awaiting an
already-materialised chunk sequence has no further effect. -/
def read_limited_async_go (limit_bytes : Int) :
    List (List Nat) → List Nat → Except String (List Nat)
  | [], data => .ok data
  | chunk :: rest, data =>
    if chunk.isEmpty then read_limited_async_go limit_bytes rest data
    else
      let data := data ++ chunk
      if (data.length : Int) > limit_bytes then .error "远程响应体过大"
      else read_limited_async_go limit_bytes rest data

/-- `_read_limited_async_chunks` from backend/network_safety.py. -/
def read_limited_async_chunks (chunks : List (List Nat)) (limit_bytes : Int) :
    Except String (List Nat) :=
  read_limited_async_go limit_bytes chunks []

/-- The byte ceiling `fetch_text_response` (and `fetch_bytes_response`)
passes to the limited reader: `max(1024, int(limit_bytes or
settings.network_max_response_bytes))`. -/
def fetch_text_limit (cfg : Config) (limit_bytes : Option Int) : Int :=
  max 1024 (pyOrInt limit_bytes cfg.network_max_response_bytes)

/-- The byte ceiling `fetch_text_response_async` passes to the limited
asynchronous reader, computed by the same expression. -/
def fetch_text_limit_async (cfg : Config) (limit_bytes : Option Int) : Int :=
  max 1024 (pyOrInt limit_bytes cfg.network_max_response_bytes)

/-! ## Retention / Cleanup Sweep (backend/cleanup.py) -/

/-- `_is_image_still_referenced` from backend/cleanup.py: does any
remaining entry's summary or HTML body contain
`/api/cache/images/<name>` (SQL `LIKE '%...%'`; a NULL column never
matches)? -/
def is_image_still_referenced (db : DB) (image_name : String) : Bool :=
  let ref := "/api/cache/images/" ++ image_name
  db.entries.any (fun e =>
    (match e.summary with
     | none => false
     | some s => s.containsSubstr ref) ||
    (match e.content_html with
     | none => false
     | some s => s.containsSubstr ref))

/-- First-occurrence de-duplication, modelling the accumulation of image
names into a Python `set` (iteration order of a set is unspecified; every
result below is order-independent). -/
def dedupNames (l : List String) : List String :=
  l.foldl (fun acc x => if acc.contains x then acc else acc ++ [x]) []

/-- The per-feed body of `cleanup_old_entries`: clamp the feed's stored
retention-days column to [1, 3650], compute the cutoff, delete the feed's
fetch-log rows older than the cutoff, then — unless no entry is old —
delete the old entries with the owner's state rows, and delete each
no-longer-referenced cached image file (`unlink(missing_ok=True)` cannot
fail in the model, so every attempted delete counts).  The accumulator is
(store, deleted entries, deleted images, deleted logs). -/
def cleanup_feed (ext : Ext) (now_ts : Int) (user : UserRec)
    (acc : DB × Int × Int × Int) (feed : Feed) : DB × Int × Int × Int :=
  let (db, de, di, dl) := acc
  let retention_days := max 1 (min feed.cleanup_retention_days 3650)
  let cutoff_ts := now_ts - retention_days * 86400
  let oldLog := fun (l : FetchLog) => l.feed_id == feed.id && l.fetched_at < cutoff_ts
  let removedLogs := (db.logs.filter oldLog).length
  let db := { db with logs := db.logs.filter (fun l => !(oldLog l)) }
  let dl := dl + removedLogs
  let old_entries :=
    db.entries.filter (fun e => e.feed_id == feed.id && e.published_at < cutoff_ts)
  if old_entries.isEmpty then (db, de, di, dl)
  else
    let entry_ids := old_entries.map (fun e => e.id)
    let cached_image_names := dedupNames (old_entries.foldl
      (fun acc e =>
        acc ++ ext.extract_image_names e.summary ++ ext.extract_image_names e.content_html)
      [])
    let db := { db with
      states := db.states.filter
        (fun s => !(s.user_id == user.id && entry_ids.contains s.entry_id)) }
    let db := { db with
      entries := db.entries.filter (fun e => !(entry_ids.contains e.id)) }
    let de := de + entry_ids.length
    let r := cached_image_names.foldl
      (fun (p : DB × Int) name =>
        if is_image_still_referenced p.1 name then p
        else
          ({ p.1 with image_files := p.1.image_files.filter (fun f => !(f == name)) },
            p.2 + 1))
      (db, di)
    (r.1, de, r.2, dl)

/-- `cleanup_old_entries` from backend/cleanup.py: for every user, for
every feed of that user, run the per-feed sweep; returns the final store
and the (deleted entries, deleted images, deleted logs) counters. -/
def cleanup_old_entries (ext : Ext) (db : DB) (now_ts : Int) :
    DB × Int × Int × Int :=
  db.users.foldl
    (fun acc user =>
      (acc.1.feeds.filter (fun f => f.user_id == user.id)).foldl
        (cleanup_feed ext now_ts user) acc)
    (db, 0, 0, 0)

/-- Cutoff timestamp following the specification's words for §4.7: the
feed's effective retention-days setting (feed-level override, else
per-user default, else system default), resolved by the source's own
settings-resolution chain, converted to seconds before now.  Stated for
comparison with the cutoff `cleanup_old_entries` actually computes. -/
def spec_effective_cutoff (cfg : Config) (db : DB) (feed : Feed) (now_ts : Int) : Int :=
  now_ts -
    (resolve_effective_feed_settings feed (lookupDefaults cfg db feed.user_id)).cleanup_retention_days
    * 86400

/-! ## Helper lemmas -/

/-- Discarding an id removes every occurrence of it from the in-flight list. -/
theorem discard_not_contains (s : SchedulerState) (feedId : Nat) :
    (s.discard feedId).inFlight.contains feedId = false := by
  simp [SchedulerState.discard]

/-! ## C1 -/

/-- C1: for every feed id, at most one fetch is in flight at any time.
`enqueue_feed_update` atomically checks membership and returns `False`
without changing the state when the id is already in flight, otherwise
inserts it and returns `True`; the id is removed unconditionally on job
completion (success or failure) and on a submission error; hence of two
concurrent refresh requests for the same id (two atomic check-and-insert
sections in either serialisation) exactly one reports queued. -/
theorem C1_single_flight (s : SchedulerState) (feedId : Nat) (submitOk : Bool) :
    (s.inFlight.contains feedId = true →
      enqueue_feed_update s feedId submitOk = (some false, s)) ∧
    (s.inFlight.contains feedId = false →
      enqueue_feed_update s feedId true = (some true, ⟨feedId :: s.inFlight⟩)) ∧
    (∀ outcome : JobOutcome,
      (run_feed_job_inFlight s feedId outcome).inFlight.contains feedId = false) ∧
    (s.inFlight.contains feedId = false →
      (enqueue_feed_update s feedId false).2.inFlight.contains feedId = false) ∧
    (s.inFlight.contains feedId = false →
      (enqueue_feed_update s feedId true).1 = some true ∧
      (enqueue_feed_update (enqueue_feed_update s feedId true).2 feedId submitOk).1
        = some false) := by
  refine ⟨?_, ?_, ?_, ?_, ?_⟩
  · intro h
    have hm : feedId ∈ s.inFlight := by simpa using h
    simp [enqueue_feed_update, hm]
  · intro h
    have hm : feedId ∉ s.inFlight := by simpa using h
    simp [enqueue_feed_update, hm]
  · intro outcome
    exact discard_not_contains s feedId
  · intro h
    have hm : feedId ∉ s.inFlight := by simpa using h
    have hd := discard_not_contains ⟨feedId :: s.inFlight⟩ feedId
    simp only [enqueue_feed_update, hm, if_false, Bool.false_eq_true]
    simpa [hm] using hd
  · intro h
    have hm : feedId ∉ s.inFlight := by simpa using h
    have h₁ : enqueue_feed_update s feedId true = (some true, ⟨feedId :: s.inFlight⟩) := by
      simp [enqueue_feed_update, hm]
    refine ⟨by simp [h₁], ?_⟩
    rw [h₁]
    simp [enqueue_feed_update]

/-- Witness for C1 at the empty in-flight set and feed id 5. -/
theorem C1_single_flight_witness :
    (⟨[]⟩ : SchedulerState).inFlight.contains 5 = false ∧
    ((enqueue_feed_update ⟨[]⟩ 5 true).1 = some true ∧
      (enqueue_feed_update (enqueue_feed_update ⟨[]⟩ 5 true).2 5 true).1 = some false) :=
  ⟨by decide, (C1_single_flight ⟨[]⟩ 5 true).2.2.2.2 (by decide)⟩

/-! ## C3 -/

/-- C3 counterexample: a rule whose parsed match JSON is the empty object
(no keywords key, hence an empty keyword list) does match a concrete
entry, and its mark-read action is applied to the entry's per-user state
— contradicting the claim that such a rule never matches and never
applies actions. -/
theorem C3_counterexample :
    matchRule
      { id := 1, user_id := 1, match_json := some {},
        actions_json := some { mark_read? := some true } }
      { id := 1, feed_id := 1, title := "Anything", published_at := 0, hash := "h" }
      = true ∧
    (apply_filters
      { rules := [{ id := 1, user_id := 1, match_json := some {},
                    actions_json := some { mark_read? := some true } }],
        states := [{ user_id := 1, entry_id := 1 }] }
      1
      { id := 1, feed_id := 1, title := "Anything", published_at := 0, hash := "h" }).states
      = [{ user_id := 1, entry_id := 1, is_read := true }] := by
  constructor
  · rfl
  · rfl

/-- C3 as amended: a rule whose parsed match JSON has an empty keyword
list (or no keywords key at all) matches every entry — the keyword
predicate imposes no constraint — and consequently `apply_filters`
applies its actions to the entry's per-user state (shown for a store
holding that rule and the entry's state row, with a mark-read action). -/
theorem C3_empty_keywords_match_all (entry : Entry) (rule : FilterRule)
    (state : UserEntryState) (m : MatchDict)
    (hm : rule.match_json = some m)
    (hk : m.keywords? = none ∨ m.keywords? = some [])
    (hen : rule.enabled = true)
    (ha : rule.actions_json = some { mark_read? := some true })
    (hsu : state.user_id = rule.user_id)
    (hse : state.entry_id = entry.id) :
    matchRule rule entry = true ∧
    (apply_filters { rules := [rule], states := [state] } rule.user_id entry).states
      = [{ state with is_read := true }] := by
  have hmatch : matchRule rule entry = true := by
    rcases hk with hk | hk <;> simp [matchRule, hm, hk]
  refine ⟨hmatch, ?_⟩
  have hp : (state.user_id == rule.user_id && state.entry_id == entry.id) = true := by
    simp [hsu, hse]
  simp [apply_filters, rulesFor, sortByPriority, insertByPriority, hen, hmatch, ha,
    apply_actions, hp, updateFirst]

/-- Witness for C3's amended theorem at a concrete rule, entry and state. -/
theorem C3_empty_keywords_match_all_witness :
    matchRule
      { id := 2, user_id := 9, match_json := some { keywords? := some [] },
        actions_json := some { mark_read? := some true } }
      { id := 4, feed_id := 3, title := "Hello world", published_at := 7, hash := "hh" }
      = true ∧
    (apply_filters
      { rules := [{ id := 2, user_id := 9, match_json := some { keywords? := some [] },
                    actions_json := some { mark_read? := some true } }],
        states := [{ user_id := 9, entry_id := 4 }] }
      9
      { id := 4, feed_id := 3, title := "Hello world", published_at := 7, hash := "hh" }).states
      = [{ user_id := 9, entry_id := 4, is_read := true }] :=
  C3_empty_keywords_match_all
    { id := 4, feed_id := 3, title := "Hello world", published_at := 7, hash := "hh" }
    { id := 2, user_id := 9, match_json := some { keywords? := some [] },
      actions_json := some { mark_read? := some true } }
    { user_id := 9, entry_id := 4 }
    { keywords? := some [] }
    rfl (Or.inr rfl) rfl rfl rfl rfl

/-! ## C7 -/

/-- C7 counterexample: a Safety Gate rejection (`UnsafeOutboundUrlError`)
raised on every attempt of a feed fetch is re-attempted by the transport's
retry logic: the attempt function runs three times, not once — so the
claim that this class of error is never retried is false. -/
theorem C7_counterexample :
    (fetch_feed_retried {} { id := 1, user_id := 1, title := "t", url := "u" }
        (fun _ => .exc (.unsafeUrl "blocked"))).2 = 3 ∧
    (fetch_feed_retried {} { id := 1, user_id := 1, title := "t", url := "u" }
        (fun _ => .exc (.unsafeUrl "blocked"))).2 ≠ 1 := by
  constructor
  · rfl
  · intro h
    simp [fetch_feed_retried, tenacity_retry, fetch_feed_attempt] at h

/-- C7 as amended: a Safety Gate rejection during a feed fetch is fatal to
that request — it yields no parsed result and the last rejection surfaces
(wrapped in tenacity's `RetryError`) — but it is not exempt from retry:
like any other exception it is re-attempted up to the 3-attempt budget of
`@retry(stop=stop_after_attempt(3), ...)` before surfacing. -/
theorem C7_unsafe_target_retried_then_fatal (ext : Ext) (feed : Feed)
    (https : Nat → HttpOutcome) (msg : String)
    (h : ∀ i, https i = .exc (.unsafeUrl msg)) :
    fetch_feed_retried ext feed https = (.retryError (.unsafeUrl msg), 3) := by
  simp [fetch_feed_retried, tenacity_retry, h, fetch_feed_attempt]

/-- Witness for C7's amended theorem at a concrete always-rejecting
transport. -/
theorem C7_unsafe_target_retried_then_fatal_witness :
    fetch_feed_retried {} { id := 2, user_id := 1, title := "t", url := "u" }
        (fun _ => .exc (.unsafeUrl "目标地址属于受保护网段"))
      = (.retryError (.unsafeUrl "目标地址属于受保护网段"), 3) :=
  C7_unsafe_target_retried_then_fatal {} { id := 2, user_id := 1, title := "t", url := "u" }
    (fun _ => .exc (.unsafeUrl "目标地址属于受保护网段")) "目标地址属于受保护网段"
    (fun _ => rfl)

/-! ## C10 -/

/-- C10 counterexample: when processing fails, the feed's `last_fetch_at`
field also changes (it is set to the failure time), so the claim that
among persisted feed fields only the error counter and the last-status
field change is false at this concrete input. -/
theorem C10_counterexample :
    (process_feed { now := 1000 } {} {}
        { id := 1, user_id := 1, title := "t", url := "u" } (.error .timeout)).2.2.last_fetch_at
      ≠ ({ id := 1, user_id := 1, title := "t", url := "u" } : Feed).last_fetch_at := by
  decide

/-- C10 as amended: when processing a feed fails with any exception, the
transaction rolls back, and among the feed's persisted fields only the
consecutive error counter (incremented) and the last-fetch time (set to
now) change; `last_status` and every other feed field, all entries, all
per-user state rows and all feed rows are unchanged, and the only store
change is the appended failure log row; the call returns 0. -/
theorem C10_failure_frame (ext : Ext) (cfg : Config) (db : DB) (feed : Feed)
    (exc : FetchExc) :
    (process_feed ext cfg db feed (.error exc)).1 = 0 ∧
    (process_feed ext cfg db feed (.error exc)).2.2
      = { feed with error_count := feed.error_count + 1, last_fetch_at := ext.now } ∧
    (process_feed ext cfg db feed (.error exc)).2.1.entries = db.entries ∧
    (process_feed ext cfg db feed (.error exc)).2.1.states = db.states ∧
    (process_feed ext cfg db feed (.error exc)).2.1.feeds = db.feeds ∧
    (process_feed ext cfg db feed (.error exc)).2.1.logs
      = db.logs ++
          [{ feed_id := feed.id
             status := feed.last_status
             fetched_at := ext.now
             error_message := some (format_fetch_error exc) }] := by
  refine ⟨rfl, rfl, rfl, rfl, rfl, rfl⟩

/-! ## C6 -/

/-- C6: when the transport returns HTTP 304 (whether surfaced as an
`HTTPStatusError` or as a plain 304 response), processing the feed inserts
zero entries and leaves the entry rows untouched, resets the feed's error
counter to 0, records status 304, and sets `last_fetch_at` to the current
time. -/
theorem C6_not_modified (ext : Ext) (cfg : Config) (db : DB) (feed : Feed)
    (http : HttpOutcome)
    (h : http = .exc (.httpStatusError 304) ∨
      ∃ etag lm body, http = .success 304 etag lm body) :
    (process_feed ext cfg db feed (fetch_feed_attempt ext feed http)).1 = 0 ∧
    (process_feed ext cfg db feed (fetch_feed_attempt ext feed http)).2.1.entries
      = db.entries ∧
    (process_feed ext cfg db feed (fetch_feed_attempt ext feed http)).2.2.error_count = 0 ∧
    (process_feed ext cfg db feed (fetch_feed_attempt ext feed http)).2.2.last_fetch_at
      = ext.now ∧
    (process_feed ext cfg db feed (fetch_feed_attempt ext feed http)).2.2.last_status
      = 304 := by
  cases hic : ext.icon with
  | none =>
    rcases h with h | ⟨etag, lm, body, h⟩ <;> subst h <;>
      simp [process_feed, fetch_feed_attempt, upsert_entries, hic]
  | some u =>
    rcases h with h | ⟨etag, lm, body, h⟩ <;> subst h <;>
      simp [process_feed, fetch_feed_attempt, upsert_entries, hic]

/-- Witness for C6 at a concrete 304 status error. -/
theorem C6_not_modified_witness :
    (process_feed { now := 50 } {} {} { id := 1, user_id := 1, title := "t", url := "u" }
        (fetch_feed_attempt { now := 50 } { id := 1, user_id := 1, title := "t", url := "u" }
          (.exc (.httpStatusError 304)))).1 = 0 ∧
    (process_feed { now := 50 } {} {} { id := 1, user_id := 1, title := "t", url := "u" }
        (fetch_feed_attempt { now := 50 } { id := 1, user_id := 1, title := "t", url := "u" }
          (.exc (.httpStatusError 304)))).2.1.entries = (({} : DB)).entries ∧
    (process_feed { now := 50 } {} {} { id := 1, user_id := 1, title := "t", url := "u" }
        (fetch_feed_attempt { now := 50 } { id := 1, user_id := 1, title := "t", url := "u" }
          (.exc (.httpStatusError 304)))).2.2.error_count = 0 ∧
    (process_feed { now := 50 } {} {} { id := 1, user_id := 1, title := "t", url := "u" }
        (fetch_feed_attempt { now := 50 } { id := 1, user_id := 1, title := "t", url := "u" }
          (.exc (.httpStatusError 304)))).2.2.last_fetch_at = ({ now := 50 } : Ext).now ∧
    (process_feed { now := 50 } {} {} { id := 1, user_id := 1, title := "t", url := "u" }
        (fetch_feed_attempt { now := 50 } { id := 1, user_id := 1, title := "t", url := "u" }
          (.exc (.httpStatusError 304)))).2.2.last_status = 304 :=
  C6_not_modified { now := 50 } {} {} { id := 1, user_id := 1, title := "t", url := "u" }
    (.exc (.httpStatusError 304)) (Or.inl rfl)

/-! ## C9 -/

/-- Classification of the limited-read loop: starting from a buffer within
the limit, it returns the buffer extended by all chunk bytes when the
total stays within the limit, and the too-large rejection otherwise. -/
theorem read_limited_go_spec (limit : Int) :
    ∀ (chunks : List (List Nat)) (data : List Nat), (data.length : Int) ≤ limit →
      read_limited_go limit chunks data =
        if ((data.length : Int) + (chunks.flatten.length : Int)) ≤ limit then
          .ok (data ++ chunks.flatten)
        else .error "远程响应体过大" := by
  intro chunks
  induction chunks with
  | nil =>
    intro data h
    simp [read_limited_go, h]
  | cons c rest ih =>
    intro data h
    by_cases hc : c.isEmpty
    · have hce : c = [] := by simpa using hc
      subst hce
      simpa [read_limited_go] using ih data h
    · have hc' : c.isEmpty = false := by simpa using hc
      simp only [read_limited_go, hc', Bool.false_eq_true, if_false]
      by_cases hover : limit < ((data ++ c).length : Int)
      · have hnot : ¬ ((data.length : Int) + (((c :: rest).flatten.length : Int))) ≤ limit := by
          have hj : (0 : Int) ≤ (rest.flatten.length : Int) := Int.ofNat_nonneg _
          simp only [List.flatten_cons, List.length_append, Nat.cast_add] at hover ⊢
          omega
        rw [if_pos hover, if_neg hnot]
      · push_neg at hover
        rw [if_neg (not_lt.mpr hover)]
        rw [ih (data ++ c) hover]
        have hiff : (((data ++ c).length : Int) + (rest.flatten.length : Int) ≤ limit)
            ↔ ((data.length : Int) + (((c :: rest).flatten.length : Int)) ≤ limit) := by
          simp only [List.flatten_cons, List.length_append, Nat.cast_add]
          omega
        by_cases hfit : ((data.length : Int) + (((c :: rest).flatten.length : Int)) ≤ limit)
        · rw [if_pos (hiff.mpr hfit), if_pos hfit]
          simp [List.flatten_cons, List.append_assoc]
        · rw [if_neg (fun hx => hfit (hiff.mp hx)), if_neg hfit]

/-- The asynchronous limited-read loop computes exactly what the
synchronous one computes. -/
theorem read_limited_async_go_eq (limit : Int) :
    ∀ (chunks : List (List Nat)) (data : List Nat),
      read_limited_async_go limit chunks data = read_limited_go limit chunks data := by
  intro chunks
  induction chunks with
  | nil => intro data; rfl
  | cons c rest ih =>
    intro data
    simp [read_limited_async_go, read_limited_go, ih]

/-- C9: the limited stream reader returns the accumulated bytes iff the
cumulative byte count never exceeds the ceiling (equivalently, the total
stays within it — the buffer only grows), rejects with the too-large
error as soon as the count exceeds the ceiling (whatever bytes follow),
and the asynchronous reader and its ceiling computation agree exactly
with the synchronous ones. -/
theorem C9_read_limited (chunks : List (List Nat)) (limit : Int) (h : 0 ≤ limit) :
    (read_limited_chunks chunks limit = .ok chunks.flatten
      ↔ (chunks.flatten.length : Int) ≤ limit) ∧
    (limit < (chunks.flatten.length : Int) →
      read_limited_chunks chunks limit = .error "远程响应体过大") ∧
    (∀ suffix, limit < (chunks.flatten.length : Int) →
      read_limited_chunks (chunks ++ suffix) limit = .error "远程响应体过大") ∧
    read_limited_async_chunks chunks limit = read_limited_chunks chunks limit ∧
    (∀ (cfg : Config) (lb : Option Int),
      fetch_text_limit_async cfg lb = fetch_text_limit cfg lb) := by
  have hspec : ∀ cs : List (List Nat),
      read_limited_chunks cs limit =
        if ((cs.flatten.length : Int)) ≤ limit then .ok cs.flatten
        else .error "远程响应体过大" := by
    intro cs
    have := read_limited_go_spec limit cs [] (by simpa using h)
    simpa [read_limited_chunks] using this
  refine ⟨?_, ?_, ?_, ?_, ?_⟩
  · rw [hspec]
    by_cases hfit : ((chunks.flatten.length : Int)) ≤ limit
    · rw [if_pos hfit]
      exact iff_of_true rfl hfit
    · rw [if_neg hfit]
      exact iff_of_false (by simp) hfit
  · intro hover
    rw [hspec, if_neg (not_le.mpr hover)]
  · intro suffix hover
    have hmono : limit < (((chunks ++ suffix).flatten.length : Int)) := by
      have hle : chunks.flatten.length ≤ ((chunks ++ suffix).flatten).length := by
        rw [List.flatten_append, List.length_append]
        omega
      have hle' : (chunks.flatten.length : Int) ≤ (((chunks ++ suffix).flatten.length : Int)) := by
        exact_mod_cast hle
      omega
    rw [hspec, if_neg (not_le.mpr hmono)]
  · simp [read_limited_async_chunks, read_limited_chunks, read_limited_async_go_eq]
  · intro cfg lb
    rfl

/-- Witness for C9 at concrete chunks and a concrete ceiling. -/
theorem C9_read_limited_witness :
    (0 : Int) ≤ 4 ∧
    (read_limited_chunks [[1, 2], [3]] 4 = .ok ([[1, 2], [3]] : List (List Nat)).flatten
      ↔ ((([[1, 2], [3]] : List (List Nat)).flatten.length : Int)) ≤ 4) :=
  ⟨by decide, (C9_read_limited [[1, 2], [3]] 4 (by decide)).1⟩

/-! ## C2 -/

/-- `_apply_actions` mutates only the per-user state rows. -/
theorem apply_actions_entries (db : DB) (u : Nat) (e : Entry) (a : ActionsDict) :
    (apply_actions db u e a).entries = db.entries := by
  simp only [apply_actions]
  split <;> rfl

/-- The rule loop of `apply_filters` mutates only the per-user state rows. -/
theorem apply_filters_fold_entries (u : Nat) (e : Entry) :
    ∀ (rules : List FilterRule) (db : DB),
      ((rules.foldl
        (fun db rule =>
          if matchRule rule e then
            match rule.actions_json with
            | none => db
            | some actions => apply_actions db u e actions
          else db)
        db).entries = db.entries) := by
  intro rules
  induction rules with
  | nil => intro db; rfl
  | cons r rs ih =>
    intro db
    rw [List.foldl_cons, ih]
    by_cases hm : matchRule r e
    · simp only [hm, if_true]
      cases r.actions_json with
      | none => rfl
      | some actions => exact apply_actions_entries db u e actions
    · simp [hm]

/-- `apply_filters` mutates only the per-user state rows. -/
theorem apply_filters_entries (db : DB) (u : Nat) (e : Entry) :
    (apply_filters db u e).entries = db.entries := by
  unfold apply_filters
  exact apply_filters_fold_entries u e (rulesFor db u) db

/-- The item loop body only ever appends entry rows: existing rows remain. -/
theorem upsertItem_mem_mono (ext : Ext) (feed : Feed) (eff : EffectiveFeedSettings)
    (acc : DB × Int) (item : Item) (x : Entry) (hx : x ∈ acc.1.entries) :
    x ∈ (upsertItem ext feed eff acc item).1.entries := by
  simp only [upsertItem]
  split
  · exact hx
  · rw [apply_filters_entries]
    split <;>
      exact List.mem_append_left _ hx

/-- After the item loop body runs on an item, an entry with that item's
(feed, hash) pair is present. -/
theorem upsertItem_establishes (ext : Ext) (feed : Feed) (eff : EffectiveFeedSettings)
    (acc : DB × Int) (item : Item) :
    ∃ e ∈ (upsertItem ext feed eff acc item).1.entries,
      e.feed_id = feed.id ∧ e.hash = itemHash ext item := by
  simp only [upsertItem]
  split
  · next e hfind =>
    have hp := List.find?_some hfind
    have hmem := List.mem_of_find?_eq_some hfind
    simp only [Bool.and_eq_true, beq_iff_eq] at hp
    exact ⟨e, hmem, hp.1, hp.2⟩
  · next hfind =>
    rw [apply_filters_entries]
    split <;>
      exact ⟨_, List.mem_append_right _ (List.mem_singleton.mpr rfl), rfl, rfl⟩

/-- Entries already present survive the whole item loop. -/
theorem upsertFold_mem_mono (ext : Ext) (feed : Feed) (eff : EffectiveFeedSettings) :
    ∀ (items : List Item) (acc : DB × Int) (x : Entry), x ∈ acc.1.entries →
      x ∈ (items.foldl (upsertItem ext feed eff) acc).1.entries := by
  intro items
  induction items with
  | nil => intro acc x hx; exact hx
  | cons it its ih =>
    intro acc x hx
    rw [List.foldl_cons]
    exact ih _ x (upsertItem_mem_mono ext feed eff acc it x hx)

/-- After the item loop, every processed item's (feed, hash) pair is
present among the entry rows. -/
theorem upsertFold_presence (ext : Ext) (feed : Feed) (eff : EffectiveFeedSettings) :
    ∀ (items : List Item) (acc : DB × Int) (item : Item), item ∈ items →
      ∃ e ∈ (items.foldl (upsertItem ext feed eff) acc).1.entries,
        e.feed_id = feed.id ∧ e.hash = itemHash ext item := by
  intro items
  induction items with
  | nil => intro acc item h; cases h
  | cons it its ih =>
    intro acc item h
    rw [List.foldl_cons]
    rcases List.mem_cons.mp h with h | h
    · subst h
      obtain ⟨e, he, hfe, hh⟩ := upsertItem_establishes ext feed eff acc item
      exact ⟨e, upsertFold_mem_mono ext feed eff its _ e he, hfe, hh⟩
    · exact ih _ item h

/-- When every item's (feed, hash) pair is already present, the item loop
is the identity: nothing is inserted and nothing is counted. -/
theorem upsertFold_skip (ext : Ext) (feed : Feed) (eff : EffectiveFeedSettings) :
    ∀ (items : List Item) (acc : DB × Int),
      (∀ item ∈ items,
        ∃ e ∈ acc.1.entries, e.feed_id = feed.id ∧ e.hash = itemHash ext item) →
      items.foldl (upsertItem ext feed eff) acc = acc := by
  intro items
  induction items with
  | nil => intro acc h; rfl
  | cons it its ih =>
    intro acc h
    have hstep : upsertItem ext feed eff acc it = acc := by
      obtain ⟨e, he, hfe, hh⟩ := h it (List.mem_cons_self it its)
      have hsome : (acc.1.entries.find?
          (fun e => e.feed_id == feed.id && e.hash == itemHash ext it)).isSome := by
        refine List.find?_isSome.mpr ⟨e, he, ?_⟩
        simp [hfe, hh]
      simp only [upsertItem]
      split
      · rfl
      · next hfind =>
        rw [hfind] at hsome
        cases hsome
    rw [List.foldl_cons, hstep]
    exact ih acc (fun item hm => h item (List.mem_cons_of_mem _ hm))

/-- C2: ingestion is idempotent.  For every store, feed and parsed feed
document, running `upsert_entries` a second time on the store produced by
the first run returns an added count of 0 and leaves the store entirely
unchanged — every item's dedup hash (the digest of guid, else link, else
title) already exists for the (feed, hash) pair, so each item is skipped
and no new entry row is created.  Quantification over `ext` covers every
digest function, in particular sha256. -/
theorem C2_ingest_idempotent (ext : Ext) (cfg : Config) (db : DB) (feed : Feed)
    (parsed : ParsedDoc) :
    (upsert_entries ext cfg (upsert_entries ext cfg db feed parsed).2 feed parsed).1 = 0 ∧
    (upsert_entries ext cfg (upsert_entries ext cfg db feed parsed).2 feed parsed).2
      = (upsert_entries ext cfg db feed parsed).2 := by
  by_cases h304 : parsed.status? = some 304
  · simp [upsert_entries, h304]
  · have hbeq : (parsed.status? == some 304) = false := by
      simpa using h304
    simp only [upsert_entries, hbeq, Bool.false_eq_true, if_false]
    have hpres : ∀ item ∈ parsed.entries,
        ∃ e ∈ ((parsed.entries.foldl
            (upsertItem ext feed
              (resolve_effective_feed_settings feed (lookupDefaults cfg db feed.user_id)))
            (db, 0)).1, (0 : Int)).1.entries,
          e.feed_id = feed.id ∧ e.hash = itemHash ext item := by
      intro item hm
      exact upsertFold_presence ext feed
        (resolve_effective_feed_settings feed (lookupDefaults cfg db feed.user_id))
        parsed.entries (db, 0) item hm
    rw [upsertFold_skip ext feed _ parsed.entries _ hpres]
    exact ⟨rfl, rfl⟩

/-! ## C4 -/

/-- The cascading backoff conditions of `iter_due_feeds` compute the
specification's range table: 1 for 0 errors, 1 for 1-2, 4 for 3-4, 24
from 5 on. -/
theorem dueBackoff_eq_table (e : Int) :
    dueBackoff e = (if e = 0 then 1 else if e ≤ 2 then 1 else if e ≤ 4 then 4 else 24) := by
  unfold dueBackoff
  split_ifs <;> omega

/-- The scan loop of the due-feed selector is a filter (the yielded feeds)
paired with a map (the auto-disable mutation). -/
theorem iterDueGo_spec (cfg : Config) (db : DB) (now_ts : Int) :
    ∀ feeds : List Feed,
      iterDueGo cfg db now_ts feeds =
        (feeds.filter (fun f =>
            !f.disabled && decide (f.error_count < 10) &&
              decide (now_ts ≥ f.last_fetch_at +
                (resolve_effective_feed_settings f (lookupDefaults cfg db f.user_id)).fetch_interval_min
                  * 60 * dueBackoff f.error_count)),
          feeds.map (fun f =>
            if !f.disabled && decide (f.error_count ≥ 10) then { f with disabled := true }
            else f)) := by
  intro feeds
  induction feeds with
  | nil => rfl
  | cons f fs ih =>
    simp only [iterDueGo, ih, List.filter_cons, List.map_cons]
    by_cases hd : f.disabled
    · simp [hd]
    · by_cases he : f.error_count ≥ 10
      · have h1 : ¬ (f.error_count < 10) := by omega
        simp [hd, he, h1]
      · have h2 : f.error_count < 10 := by omega
        by_cases hdue : now_ts ≥ f.last_fetch_at +
            (resolve_effective_feed_settings f (lookupDefaults cfg db f.user_id)).fetch_interval_min
              * 60 * dueBackoff f.error_count
        · simp [hd, he, h2, hdue]
        · simp [hd, he, h2, hdue]

/-- C4: for every enabled feed scanned by the due-feed selector, a feed
with ten or more consecutive errors is marked disabled by the scan and
excluded from the yielded set, and every other feed is yielded exactly
when `now >= last_fetch_at + effective_interval_seconds * backoff`, with
backoff 1 for 0 errors, 1 for 1-2, 4 for 3-4 and 24 for 5-9; in
particular a feed with a 30-minute interval override is due iff
`now - last_fetch_at >= 1800` at 0 errors and iff `>= 1800 * 4` at 4
errors. -/
theorem C4_due_selector (cfg : Config) (db : DB) (now_ts : Int) :
    ((iter_due_feeds cfg db now_ts).2 = db.feeds.map (fun f =>
        if !f.disabled && decide (f.error_count ≥ 10) then { f with disabled := true }
        else f)) ∧
    ((iter_due_feeds cfg db now_ts).1 = db.feeds.filter (fun f =>
        !f.disabled && decide (f.error_count < 10) &&
          decide (now_ts ≥ f.last_fetch_at +
            (resolve_effective_feed_settings f (lookupDefaults cfg db f.user_id)).fetch_interval_min
              * 60 *
              (if f.error_count = 0 then 1 else if f.error_count ≤ 2 then 1
               else if f.error_count ≤ 4 then 4 else 24)))) ∧
    (∀ f : Feed, f.disabled = false → f.error_count = 0 →
      f.use_global_fetch_interval = false → f.fetch_interval_min = 30 →
      ((iter_due_feeds cfg { db with feeds := [f] } now_ts).1 = [f]
        ↔ now_ts - f.last_fetch_at ≥ 1800)) ∧
    (∀ f : Feed, f.disabled = false → f.error_count = 4 →
      f.use_global_fetch_interval = false → f.fetch_interval_min = 30 →
      ((iter_due_feeds cfg { db with feeds := [f] } now_ts).1 = [f]
        ↔ now_ts - f.last_fetch_at ≥ 1800 * 4)) := by
  refine ⟨?_, ?_, ?_, ?_⟩
  · rw [iter_due_feeds, iterDueGo_spec]
  · rw [iter_due_feeds, iterDueGo_spec]
    refine List.filter_congr ?_
    intro f hf
    rw [dueBackoff_eq_table]
  · intro f hd he hug hfi
    rw [iter_due_feeds, iterDueGo_spec]
    have heff : (resolve_effective_feed_settings f
        (lookupDefaults cfg { db with feeds := [f] } f.user_id)).fetch_interval_min = 30 := by
      simp [resolve_effective_feed_settings, hug, hfi, clamp_int]
    have hbk : dueBackoff f.error_count = 1 := by
      rw [he]; rfl
    by_cases hdue : now_ts ≥ f.last_fetch_at + 1800
    · have hpred : (!f.disabled && decide (f.error_count < 10) &&
          decide (now_ts ≥ f.last_fetch_at +
            (resolve_effective_feed_settings f
              (lookupDefaults cfg { db with feeds := [f] } f.user_id)).fetch_interval_min
              * 60 * dueBackoff f.error_count)) = true := by
        rw [heff, hbk]
        simp [hd, he]
        omega
      simp only [List.filter_cons, hpred, if_true, List.filter_nil]
      constructor
      · intro _; omega
      · intro _; trivial
    · have hpred : (!f.disabled && decide (f.error_count < 10) &&
          decide (now_ts ≥ f.last_fetch_at +
            (resolve_effective_feed_settings f
              (lookupDefaults cfg { db with feeds := [f] } f.user_id)).fetch_interval_min
              * 60 * dueBackoff f.error_count)) = false := by
        rw [heff, hbk]
        simp [hd, he]
        omega
      simp only [List.filter_cons, hpred, Bool.false_eq_true, if_false, List.filter_nil]
      constructor
      · intro hx; cases hx
      · intro hx; omega
  · intro f hd he hug hfi
    rw [iter_due_feeds, iterDueGo_spec]
    have heff : (resolve_effective_feed_settings f
        (lookupDefaults cfg { db with feeds := [f] } f.user_id)).fetch_interval_min = 30 := by
      simp [resolve_effective_feed_settings, hug, hfi, clamp_int]
    have hbk : dueBackoff f.error_count = 4 := by
      rw [he]; rfl
    by_cases hdue : now_ts ≥ f.last_fetch_at + 7200
    · have hpred : (!f.disabled && decide (f.error_count < 10) &&
          decide (now_ts ≥ f.last_fetch_at +
            (resolve_effective_feed_settings f
              (lookupDefaults cfg { db with feeds := [f] } f.user_id)).fetch_interval_min
              * 60 * dueBackoff f.error_count)) = true := by
        rw [heff, hbk]
        simp [hd, he]
        omega
      simp only [List.filter_cons, hpred, if_true, List.filter_nil]
      constructor
      · intro _; omega
      · intro _; trivial
    · have hpred : (!f.disabled && decide (f.error_count < 10) &&
          decide (now_ts ≥ f.last_fetch_at +
            (resolve_effective_feed_settings f
              (lookupDefaults cfg { db with feeds := [f] } f.user_id)).fetch_interval_min
              * 60 * dueBackoff f.error_count)) = false := by
        rw [heff, hbk]
        simp [hd, he]
        omega
      simp only [List.filter_cons, hpred, Bool.false_eq_true, if_false, List.filter_nil]
      constructor
      · intro hx; cases hx
      · intro hx; omega

/-- Witness for C4 at a concrete feed and scan time. -/
theorem C4_due_selector_witness :
    ((iter_due_feeds {} { feeds := [{ id := 1, user_id := 1, title := "t", url := "u", fetch_interval_min := 30, use_global_fetch_interval := false, last_fetch_at := 100 }] } 2000).1 = [{ id := 1, user_id := 1, title := "t", url := "u", fetch_interval_min := 30, use_global_fetch_interval := false, last_fetch_at := 100 }] ↔ (2000 : Int) - 100 ≥ 1800) :=
  (C4_due_selector {} { feeds := [{ id := 1, user_id := 1, title := "t", url := "u", fetch_interval_min := 30, use_global_fetch_interval := false, last_fetch_at := 100 }] } 2000).2.2.1 { id := 1, user_id := 1, title := "t", url := "u", fetch_interval_min := 30, use_global_fetch_interval := false, last_fetch_at := 100 } rfl rfl rfl rfl

/-! ## C5 -/

/-- C5: the outbound URL validator rejects every URL whose scheme is not
http/https, that lacks a hostname, or that embeds credentials, and — with
private-network blocking enabled — every URL whose host (a literal IP, or
any DNS-resolved address of a hostname) includes a private, loopback,
link-local, multicast, reserved or unspecified address; in particular
`http://127.0.0.1/x` and `http://169.254.169.254/` are rejected while
`https://1.1.1.1/rss` is accepted and the URL returned. -/
theorem C5_outbound_url_validator (cfg : Config) (dns : String → List Nat)
    (raw_url : String) :
    (¬(pyLower (urlsplit (pyStrip raw_url)).scheme = "http" ∨
        pyLower (urlsplit (pyStrip raw_url)).scheme = "https") →
      ∃ msg, ensure_safe_outbound_url cfg dns raw_url = .error msg) ∧
    ((urlsplit (pyStrip raw_url)).hostname = none →
      ∃ msg, ensure_safe_outbound_url cfg dns raw_url = .error msg) ∧
    ((strTruthy (urlsplit (pyStrip raw_url)).username ||
        strTruthy (urlsplit (pyStrip raw_url)).password) = true →
      ∃ msg, ensure_safe_outbound_url cfg dns raw_url = .error msg) ∧
    (cfg.network_block_private = true →
      ∀ host ip, (urlsplit (pyStrip raw_url)).hostname = some host →
        ip_address_v4 host = some ip → is_blocked_ip ip = true →
        ∃ msg, ensure_safe_outbound_url cfg dns raw_url = .error msg) ∧
    (cfg.network_block_private = true →
      ∀ host, (urlsplit (pyStrip raw_url)).hostname = some host →
        ip_address_v4 host = none → (dns host).any is_blocked_ip = true →
        ∃ msg, ensure_safe_outbound_url cfg dns raw_url = .error msg) ∧
    (cfg.network_block_private = true →
      ensure_safe_outbound_url cfg dns "http://127.0.0.1/x"
          = .error "目标地址属于受保护网段" ∧
      ensure_safe_outbound_url cfg dns "http://169.254.169.254/"
          = .error "目标地址属于受保护网段" ∧
      ensure_safe_outbound_url cfg dns "https://1.1.1.1/rss"
          = .ok "https://1.1.1.1/rss") := by
  refine ⟨?_, ?_, ?_, ?_, ?_, ?_⟩
  · intro h
    by_cases hv : (pyStrip raw_url == "") = true
    · exact ⟨"URL 不能为空", by simp [ensure_safe_outbound_url, hv]⟩
    · push_neg at h
      have hs : (pyLower (urlsplit (pyStrip raw_url)).scheme == "http" ||
          pyLower (urlsplit (pyStrip raw_url)).scheme == "https") = false := by
        simp [h.1, h.2]
      exact ⟨"仅允许 http/https URL", by simp [ensure_safe_outbound_url, hv, hs]⟩
  · intro h
    by_cases hv : (pyStrip raw_url == "") = true
    · exact ⟨"URL 不能为空", by simp [ensure_safe_outbound_url, hv]⟩
    · by_cases hs : (pyLower (urlsplit (pyStrip raw_url)).scheme == "http" ||
          pyLower (urlsplit (pyStrip raw_url)).scheme == "https") = true
      · exact ⟨"URL 缺少主机名", by simp [ensure_safe_outbound_url, hv, hs, h]⟩
      · have hs' := eq_false_of_ne_true hs
        exact ⟨"仅允许 http/https URL", by simp [ensure_safe_outbound_url, hv, hs']⟩
  · intro h
    by_cases hv : (pyStrip raw_url == "") = true
    · exact ⟨"URL 不能为空", by simp [ensure_safe_outbound_url, hv]⟩
    · by_cases hs : (pyLower (urlsplit (pyStrip raw_url)).scheme == "http" ||
          pyLower (urlsplit (pyStrip raw_url)).scheme == "https") = true
      · cases hh : (urlsplit (pyStrip raw_url)).hostname with
        | none => exact ⟨"URL 缺少主机名", by simp [ensure_safe_outbound_url, hv, hs, hh]⟩
        | some host =>
          exact ⟨"URL 不允许内嵌凭据", by simp [ensure_safe_outbound_url, hv, hs, hh, h]⟩
      · have hs' := eq_false_of_ne_true hs
        exact ⟨"仅允许 http/https URL", by simp [ensure_safe_outbound_url, hv, hs']⟩
  · intro hb host ip hh hip hblk
    by_cases hv : (pyStrip raw_url == "") = true
    · exact ⟨"URL 不能为空", by simp [ensure_safe_outbound_url, hv]⟩
    · by_cases hs : (pyLower (urlsplit (pyStrip raw_url)).scheme == "http" ||
          pyLower (urlsplit (pyStrip raw_url)).scheme == "https") = true
      · by_cases hcred : (strTruthy (urlsplit (pyStrip raw_url)).username ||
            strTruthy (urlsplit (pyStrip raw_url)).password) = true
        · exact ⟨"URL 不允许内嵌凭据", by simp [ensure_safe_outbound_url, hv, hs, hh, hcred]⟩
        · have hcred' := eq_false_of_ne_true hcred
          exact ⟨"目标地址属于受保护网段", by
            simp [ensure_safe_outbound_url, hv, hs, hh, hcred', hb, hip, hblk]⟩
      · have hs' := eq_false_of_ne_true hs
        exact ⟨"仅允许 http/https URL", by simp [ensure_safe_outbound_url, hv, hs']⟩
  · intro hb host hh hip hany
    by_cases hv : (pyStrip raw_url == "") = true
    · exact ⟨"URL 不能为空", by simp [ensure_safe_outbound_url, hv]⟩
    · by_cases hs : (pyLower (urlsplit (pyStrip raw_url)).scheme == "http" ||
          pyLower (urlsplit (pyStrip raw_url)).scheme == "https") = true
      · by_cases hcred : (strTruthy (urlsplit (pyStrip raw_url)).username ||
            strTruthy (urlsplit (pyStrip raw_url)).password) = true
        · exact ⟨"URL 不允许内嵌凭据", by simp [ensure_safe_outbound_url, hv, hs, hh, hcred]⟩
        · have hcred' := eq_false_of_ne_true hcred
          by_cases hres : (dns host).isEmpty = true
          · exact ⟨"无法解析目标地址", by
              simp [ensure_safe_outbound_url, hv, hs, hh, hcred', hb, hip,
                resolve_host_ips, hres]⟩
          · have hres' := eq_false_of_ne_true hres
            exact ⟨"目标地址属于受保护网段", by
              simp [ensure_safe_outbound_url, hv, hs, hh, hcred', hb, hip,
                resolve_host_ips, hres', hany]⟩
      · have hs' := eq_false_of_ne_true hs
        exact ⟨"仅允许 http/https URL", by simp [ensure_safe_outbound_url, hv, hs']⟩
  · intro hb
    rcases cfg with ⟨ft, nb, mb, mt⟩
    have hnb : nb = true := hb
    subst hnb
    exact ⟨rfl, rfl, rfl⟩

/-- Witness for C5: with the default configuration (private-network
blocking on), the two loopback/link-local probes reject and the public
address is accepted. -/
theorem C5_outbound_url_validator_witness :
    ({} : Config).network_block_private = true ∧
    (ensure_safe_outbound_url {} (fun _ => []) "http://127.0.0.1/x"
        = .error "目标地址属于受保护网段" ∧
      ensure_safe_outbound_url {} (fun _ => []) "http://169.254.169.254/"
        = .error "目标地址属于受保护网段" ∧
      ensure_safe_outbound_url {} (fun _ => []) "https://1.1.1.1/rss"
        = .ok "https://1.1.1.1/rss") :=
  ⟨rfl, (C5_outbound_url_validator {} (fun _ => []) "x").2.2.2.2.2 rfl⟩

/-! ## C8 -/

/-- C8: the cleanup sweep's cutoff ignores the effective-settings
resolution.  At this concrete store the feed has a stored
retention-days column of 5 but inherits the global default (the
use-global flag is set), whose resolved effective retention is 30 days;
the entry published 6 days before the sweep lies within the effective
retention window (its publish time is after the spec's effective cutoff),
yet `cleanup_old_entries` deletes it (and its per-user state row),
because the code computes the cutoff from the raw column. -/
theorem C8_cleanup_ignores_effective_retention :
    ((cleanup_old_entries {} { users := [{ id := 1 }], feeds := [{ id := 1, user_id := 1, title := "t", url := "u", cleanup_retention_days := 5, use_global_cleanup_retention := true }], entries := [{ id := 1, feed_id := 1, title := "old", published_at := 9481600, hash := "h" }], states := [{ user_id := 1, entry_id := 1 }] } 10000000).1.entries = [] ∧
      (cleanup_old_entries {} { users := [{ id := 1 }], feeds := [{ id := 1, user_id := 1, title := "t", url := "u", cleanup_retention_days := 5, use_global_cleanup_retention := true }], entries := [{ id := 1, feed_id := 1, title := "old", published_at := 9481600, hash := "h" }], states := [{ user_id := 1, entry_id := 1 }] } 10000000).1.states = [] ∧
      (cleanup_old_entries {} { users := [{ id := 1 }], feeds := [{ id := 1, user_id := 1, title := "t", url := "u", cleanup_retention_days := 5, use_global_cleanup_retention := true }], entries := [{ id := 1, feed_id := 1, title := "old", published_at := 9481600, hash := "h" }], states := [{ user_id := 1, entry_id := 1 }] } 10000000).2.1 = 1) ∧
    spec_effective_cutoff {} { users := [{ id := 1 }], feeds := [{ id := 1, user_id := 1, title := "t", url := "u", cleanup_retention_days := 5, use_global_cleanup_retention := true }], entries := [{ id := 1, feed_id := 1, title := "old", published_at := 9481600, hash := "h" }], states := [{ user_id := 1, entry_id := 1 }] } { id := 1, user_id := 1, title := "t", url := "u", cleanup_retention_days := 5, use_global_cleanup_retention := true } 10000000
      < ({ id := 1, feed_id := 1, title := "old", published_at := 9481600, hash := "h" } : Entry).published_at := by
  refine ⟨⟨?_, ?_, ?_⟩, ?_⟩ <;> decide

end YATTR
